import Mathlib

/-!
Verification of the voice-control client core: the audio capture pipeline
(src/voice-control-app/src/services/audio.ts, with the Android native
recorder in src/unnamed/part_000) and the WebSocket service
(src/voice-control-app/src/services/websocket.ts).

Each definition is a shallow embedding of the corresponding source
function; machine integers are modelled as Nat (no overflow is reachable
at the sizes involved), fallible operations return an error component,
and the event-driven control flow is modelled as explicit state passing.
-/

namespace Kilo

/-! ## Audio capture pipeline, from audio.ts

The AudioService fields relevant to recording are isRecording, sequence,
audioChunks (modelled by its length) and startTime.  MediaRecorder
callbacks are modelled as events fed to a step function.
-/

inductive AudioError where
  | alreadyRecording
  | notRecording
  | startFailed
deriving DecidableEq, Repr

structure AudioState where
  isRecording : Bool
  sequence : Nat
  chunkCount : Nat
  startTime : Nat
deriving DecidableEq, Repr

/-- Field values of a freshly constructed AudioService. -/
def initialAudioState : AudioState :=
  { isRecording := false, sequence := 0, chunkCount := 0, startTime := 0 }

/-- Chunk event as the application transmits it: processAudioChunk emits
the data with the current value of this.sequence, and the screen handler
forwards it via sendAudioData with is_final fixed to false
(VoiceControlScreen passes false on every chunk). -/
structure ChunkEvent where
  sequence : Nat
  isFinal : Bool
deriving DecidableEq, Repr

/-- Embedding of AudioService.startRecording.  The guard throws before
any field is touched; on the success path audioChunks is cleared, the
recorder starts, isRecording is set, startTime recorded and sequence
reset to 0, in source order.  micOk models whether getUserMedia
succeeds; a failure there throws before any field assignment. -/
def startRecording (micOk : Bool) (now : Nat) (s : AudioState) :
    AudioState × Option AudioError :=
  if s.isRecording then (s, some .alreadyRecording)
  else if micOk = false then (s, some .startFailed)
  else ({ isRecording := true, sequence := 0, chunkCount := 0, startTime := now }, none)

/-- Embedding of the ondataavailable handler installed by
setupMediaRecorder: when event.data.size is positive the blob is pushed
onto audioChunks, this.sequence is incremented, and processAudioChunk
then emits a chunk carrying the (already incremented) value of
this.sequence. -/
def dataAvailable (size : Nat) (s : AudioState) : AudioState × Option ChunkEvent :=
  if 0 < size then
    let s2 : AudioState :=
      { s with chunkCount := s.chunkCount + 1, sequence := s.sequence + 1 }
    (s2, some { sequence := s2.sequence, isFinal := false })
  else (s, none)

/-- Feed a list of dataavailable event sizes through the recorder and
collect the emitted chunk events in order. -/
def recordPass (sizes : List Nat) (s : AudioState) : AudioState × List ChunkEvent :=
  match sizes with
  | [] => (s, [])
  | n :: rest =>
    let p := dataAvailable n s
    let q := recordPass rest p.1
    (q.1, (match p.2 with | some e => [e] | none => []) ++ q.2)

/-- Embedding of AudioService.stopRecording (the onstop callback path):
isRecording is cleared, sequence reset to 0, and cleanup empties
audioChunks.  No chunk event carrying a final flag is emitted anywhere
on this path. -/
def stopRecording (s : AudioState) : AudioState × Option AudioError :=
  if s.isRecording = false then (s, some .notRecording)
  else ({ s with isRecording := false, sequence := 0, chunkCount := 0 }, none)

/-- Embedding of AudioRecorderModule.getNextSequence from the Android
native module (src/unnamed/part_000): pre-increment of a counter that is
initialised once per module instance and reset by no recording
lifecycle method. -/
def androidNextSequence (counter : Nat) : Nat × Nat :=
  (counter + 1, counter + 1)

/-- State of AudioService immediately after a successful startRecording
from the fresh state. -/
def startedAudioState : AudioState :=
  (startRecording true 0 initialAudioState).1

/-! ## WebSocket service, from websocket.ts

A ClientMessage or ServerMessage is modelled by its type tag and the
optional data.session_id field, the only payload parts the service
inspects.  The mutable fields of WebSocketService relevant to the claims
are the socket (null or not, and its connected flag), sessionId,
messageQueue, the heartbeat timer and the eventListeners map; the
messages handed to socket.emit are recorded in order in `sent`.
-/

structure Msg where
  mtype : String
  sid : Option String := none
deriving DecidableEq, Repr

/-- Listener stored in the eventListeners map.  A plain listener is an
ordinary callback that leaves the listener array alone; a waiter is the
responseHandler closure created by one sendWithResponse call, which on a
matching message clears its timer, removes itself via off, and resolves
its promise.  Distinct closures are distinct function objects, modelled
by distinct ids. -/
inductive Handler where
  | plain (id : Nat)
  | waiter (id : Nat)
deriving DecidableEq, Repr

def Handler.isPlain : Handler → Bool
  | .plain _ => true
  | .waiter _ => false

/-- Core of WebSocketService.emit for one event key: the ECMA forEach
over the live listener array.  len0 is the array length captured when
the iteration starts; at index k the element is fetched from the current
array only if that index is still populated.  A waiter callback splices
itself out of the array at its current index (off locates the function
object there, closures being distinct) and its request id is recorded as
resolved by this message. -/
def forEachCall (len0 k : Nat) (arr : List Handler) (resolved : List Nat) :
    List Handler × List Nat :=
  if hk : k < len0 then
    if h : k < arr.length then
      match arr.get ⟨k, h⟩ with
      | .plain _ => forEachCall len0 (k + 1) arr resolved
      | .waiter i => forEachCall len0 (k + 1) (arr.eraseIdx k) (resolved ++ [i])
    else forEachCall len0 (k + 1) arr resolved
  else (arr, resolved)
termination_by len0 - k

/-- Embedding of WebSocketService.emit restricted to the listener array
of the dispatched event key: the pair of the listener array after the
forEach and the ids of the waiter requests resolved by this single
message. -/
def emitEvent (arr : List Handler) : List Handler × List Nat :=
  forEachCall arr.length 0 arr []

/-- Recursion on the remaining suffix equivalent to forEachCall: front
holds the part of the array the iteration index has passed, rest the
part still to visit, and the budget counts the loop iterations left from
the captured length.  When a waiter removes itself the element that
slides into its index is passed over by the next iteration. -/
def emitRec (b : Nat) (front rest : List Handler) (res : List Nat) :
    List Handler × List Nat :=
  match b, rest with
  | 0, _ => (front ++ rest, res)
  | _ + 1, [] => (front, res)
  | bp + 1, .plain i :: t => emitRec bp (front ++ [.plain i]) t res
  | bp + 1, .waiter i :: t =>
    match t with
    | [] => emitRec bp front [] (res ++ [i])
    | h2 :: t2 => emitRec bp (front ++ [h2]) t2 (res ++ [i])

/-- Embedding of WebSocketService.on: the callback is appended to the
array for the event key, the array being created on first use. -/
def addEventListener (key : String) (h : Handler)
    (ls : List (String × List Handler)) : List (String × List Handler) :=
  if (ls.map Prod.fst).contains key then
    ls.map (fun p => if p.1 == key then (p.1, p.2 ++ [h]) else p)
  else ls ++ [(key, [h])]

/-- Apply f to the listener array registered for the given key. -/
def updateListeners (key : String) (f : List Handler → List Handler)
    (ls : List (String × List Handler)) : List (String × List Handler) :=
  ls.map (fun p => if p.1 == key then (p.1, f p.2) else p)

structure WSState where
  socketNonNull : Bool
  connected : Bool
  sessionId : Option String
  messageQueue : List Msg
  sent : List Msg
  heartbeatActive : Bool
  listeners : List (String × List Handler)
deriving DecidableEq, Repr

/-- Embedding of WebSocketService.isConnected:
this.socket?.connected || false. -/
def isConnected (s : WSState) : Bool := s.socketNonNull && s.connected

/-- Embedding of WebSocketService.sendMessage: when the socket is null
or not connected the message is pushed onto messageQueue and the method
returns; otherwise socket.emit is attempted and, when emit throws
(modelled by emitOk = false), the catch block pushes the message onto
messageQueue. -/
def sendMessage (emitOk : Bool) (m : Msg) (s : WSState) : WSState :=
  if isConnected s = false then { s with messageQueue := s.messageQueue ++ [m] }
  else if emitOk then { s with sent := s.sent ++ [m] }
  else { s with messageQueue := s.messageQueue ++ [m] }

/-- Embedding of the flushMessageQueue while loop: while the queue is
non-empty and the socket is connected, shift the front message and hand
it to sendMessage.  The loop is given the initial queue length as fuel;
when every emit succeeds the queue shrinks by one per iteration, so the
fuel is exact. -/
def flushLoop : Nat → (Msg → Bool) → WSState → WSState
  | 0, _, s => s
  | fuel + 1, emitOk, s =>
    if isConnected s = false then s
    else
      match s.messageQueue with
      | [] => s
      | m :: rest =>
        flushLoop fuel emitOk (sendMessage (emitOk m) m { s with messageQueue := rest })

def flushMessageQueue (emitOk : Msg → Bool) (s : WSState) : WSState :=
  flushLoop s.messageQueue.length emitOk s

/-- Embedding of WebSocketService.disconnect: when the socket is
non-null, stop the heartbeat timer, disconnect and null the socket, and
clear sessionId.  The eventListeners map and the messageQueue are not
touched. -/
def disconnect (s : WSState) : WSState :=
  if s.socketNonNull = true then
    { s with heartbeatActive := false, socketNonNull := false,
             connected := false, sessionId := none }
  else s

/-- Run the listener array of the given event key through emitEvent, as
WebSocketService.emit does when the service dispatches an event. -/
def dispatchEvent (key : String) (s : WSState) : WSState :=
  { s with listeners := updateListeners key (fun arr => (emitEvent arr).1) s.listeners }

/-- Embedding of setSessionId: store the id and emit session_id_changed. -/
def setSessionId (sid : String) (s : WSState) : WSState :=
  dispatchEvent "session_id_changed" { s with sessionId := some sid }

/-- Embedding of handleMessage: a connection_response carrying a
session_id stores it via setSessionId; then the message is emitted to
the listeners of its own type and to the generic message listeners. -/
def handleMessage (m : Msg) (s : WSState) : WSState :=
  let s1 :=
    if m.mtype == "connection_response" then
      match m.sid with
      | some sid => setSessionId sid s
      | none => s
    else s
  dispatchEvent "message" (dispatchEvent m.mtype s1)

/-- Message built by sendHeartbeatResponse. -/
def heartbeatResponseMsg : Msg := { mtype := "heartbeat_response" }

/-- External events driving the service: the socket-level connect,
disconnect and reconnect callbacks installed in connect and
setupEventHandlers, an inbound server message, an application call to
sendMessage or disconnect, and a tick of the 30000 ms timer installed by
startHeartbeat.  Each emitOk argument models whether the corresponding
socket.emit call throws. -/
inductive WSEvent where
  | sockConnect
  | sockDisconnect
  | sockReconnect (emitOk : Msg → Bool)
  | incoming (m : Msg)
  | callSend (emitOk : Bool) (m : Msg)
  | callDisconnect
  | hbTick (emitOk : Bool)

/-- One step of the service.  sockConnect runs the connect handler
(startHeartbeat); sockDisconnect runs the disconnect handler
(stopHeartbeat, sessionId = null, emit disconnect); sockReconnect runs
the reconnect handler on the freshly reconnected socket
(flushMessageQueue, emit reconnect); incoming runs handleMessage;
hbTick runs the interval callback, which sends a heartbeat response only
when isConnected holds. -/
def step (e : WSEvent) (s : WSState) : WSState :=
  match e with
  | .sockConnect =>
    { s with socketNonNull := true, connected := true, heartbeatActive := true }
  | .sockDisconnect =>
    dispatchEvent "disconnect"
      { s with connected := false, heartbeatActive := false, sessionId := none }
  | .sockReconnect emitOk =>
    dispatchEvent "reconnect"
      (flushMessageQueue emitOk { s with socketNonNull := true, connected := true })
  | .incoming m => handleMessage m s
  | .callSend emitOk m => sendMessage emitOk m s
  | .callDisconnect => disconnect s
  | .hbTick emitOk =>
    if s.heartbeatActive && isConnected s then sendMessage emitOk heartbeatResponseMsg s
    else s

def runEvents (evs : List WSEvent) (s : WSState) : WSState :=
  evs.foldl (fun t e => step e t) s

/-- Events that can store a session id: only an inbound
connection_response whose data carries a session_id. -/
def assignsSession : WSEvent → Bool
  | .incoming m => m.mtype == "connection_response" && m.sid.isSome
  | _ => false

/-- Number of waiter handlers (pending sendWithResponse calls) in a
listener array. -/
def waiterCount (arr : List Handler) : Nat :=
  (arr.filter (fun h => !h.isPlain)).length

/-- Number of pending sendWithResponse calls registered in the service. -/
def pendingWaiterCount (s : WSState) : Nat :=
  (s.listeners.map (fun p => waiterCount p.2)).sum

/-! ## Connection options and registered socket events, from connect and
setupEventHandlers -/

structure IoOptions where
  timeoutMs : Nat
  reconnection : Bool
  reconnectionAttempts : Nat
  reconnectionDelayMs : Nat
deriving DecidableEq, Repr

/-- Options passed to io() in connect: transport timeout 10000 ms,
reconnection enabled, reconnectionAttempts = maxReconnectAttempts = 5,
reconnectionDelay = reconnectInterval = 1000 ms. -/
def connectOptions : IoOptions :=
  { timeoutMs := 10000, reconnection := true,
    reconnectionAttempts := 5, reconnectionDelayMs := 1000 }

/-- Socket event names the service registers handlers for, in source
order: setupEventHandlers first, then the connect, connect_error and
disconnect handlers installed inside connect. -/
def registeredSocketEvents : List String :=
  ["message", "connection_response", "stt_response", "llm_response", "llm_stream",
   "mcp_response", "status_update", "error", "heartbeat", "reconnect_attempt",
   "reconnect", "connect", "connect_error", "disconnect"]

/-! ## sendWithResponse timing -/

/-- Inbound server message with its arrival time in ms after the
sendWithResponse call. -/
structure Inbound where
  time : Nat
  mtype : String
deriving DecidableEq, Repr

/-- Timer duration hardcoded in sendWithResponse: setTimeout(..., 10000). -/
def sendWithResponseTimeoutMs : Nat := 10000

/-- Rejection message built in the setTimeout callback. -/
def timeoutText (rt : String) : String := "Timeout waiting for " ++ rt

/-- Race between the responseHandler and the timer of one
sendWithResponse call, over the time-ordered inbound messages: a message
arriving once the deadline has passed finds the timer already fired
(handler removed, promise rejected with the Timeout error); before the
deadline, a message of the expected type clears the timer, deregisters
the handler and resolves the promise, and any other message is ignored
by the type check.  An empty remainder means the timer fires. -/
def awaitLoop (rt : String) (deadline : Nat) : List Inbound → Except String Inbound
  | [] => .error (timeoutText rt)
  | m :: rest =>
    if deadline ≤ m.time then .error (timeoutText rt)
    else if m.mtype == rt then .ok m
    else awaitLoop rt deadline rest

/-- Outcome of one sendWithResponse call awaiting responseType rt, with
the timer at the hardcoded 10000 ms. -/
def sendWithResponse (rt : String) (evs : List Inbound) : Except String Inbound :=
  awaitLoop rt sendWithResponseTimeoutMs evs

/-! ## Concrete states used by counterexamples -/

/-- Connected state with the heartbeat timer running, as after a
successful connect and handshake. -/
def heartbeatScenarioState : WSState :=
  { socketNonNull := true, connected := true, sessionId := some "s1",
    messageQueue := [], sent := [], heartbeatActive := true, listeners := [] }

/-- State with a null socket, as before any connect call. -/
def disconnectedWSState : WSState :=
  { socketNonNull := false, connected := false, sessionId := none,
    messageQueue := [], sent := [], heartbeatActive := false, listeners := [] }

/-- Connected state with one pending sendWithResponse call awaiting a
connection_response, and one queued message. -/
def pendingAwaitState : WSState :=
  { socketNonNull := true, connected := true, sessionId := some "s1",
    messageQueue := [{ mtype := "audio_data" }], sent := [],
    heartbeatActive := true,
    listeners := [("connection_response", [Handler.waiter 1])] }

end Kilo

namespace Kilo

/-- Fields of the service state that sendMessage never modifies. -/
theorem sendMessage_preserves (emitOk : Bool) (m : Msg) (s : WSState) :
    (sendMessage emitOk m s).socketNonNull = s.socketNonNull ∧
    (sendMessage emitOk m s).connected = s.connected ∧
    (sendMessage emitOk m s).sessionId = s.sessionId ∧
    (sendMessage emitOk m s).heartbeatActive = s.heartbeatActive ∧
    (sendMessage emitOk m s).listeners = s.listeners := by
  unfold sendMessage
  split
  · exact ⟨rfl, rfl, rfl, rfl, rfl⟩
  · split
    · exact ⟨rfl, rfl, rfl, rfl, rfl⟩
    · exact ⟨rfl, rfl, rfl, rfl, rfl⟩

/-- Fields of the service state that the flush loop never modifies. -/
theorem flushLoop_preserves (fuel : Nat) (eo : Msg → Bool) (s : WSState) :
    (flushLoop fuel eo s).socketNonNull = s.socketNonNull ∧
    (flushLoop fuel eo s).connected = s.connected ∧
    (flushLoop fuel eo s).sessionId = s.sessionId ∧
    (flushLoop fuel eo s).heartbeatActive = s.heartbeatActive ∧
    (flushLoop fuel eo s).listeners = s.listeners := by
  induction fuel generalizing s with
  | zero => exact ⟨rfl, rfl, rfl, rfl, rfl⟩
  | succ n ih =>
    simp only [flushLoop]
    split
    · exact ⟨rfl, rfl, rfl, rfl, rfl⟩
    · split
      · exact ⟨rfl, rfl, rfl, rfl, rfl⟩
      · rename_i m rest heq
        obtain ⟨q1, q2, q3, q4, q5⟩ :=
          ih (sendMessage (eo m) m { s with messageQueue := rest })
        obtain ⟨p1, p2, p3, p4, p5⟩ :=
          sendMessage_preserves (eo m) m { s with messageQueue := rest }
        exact ⟨q1.trans p1, q2.trans p2, q3.trans p3, q4.trans p4, q5.trans p5⟩

/-- C10: sendMessage never silently discards a message: when the socket
is connected and emit does not throw the message goes to the transport;
when the socket is not connected, or emit throws, the message is
appended to the queue with the transport log unchanged. -/
theorem c10_send_never_discards (emitOk : Bool) (m : Msg) (s : WSState) :
    (isConnected s = true → emitOk = true →
      sendMessage emitOk m s = { s with sent := s.sent ++ [m] }) ∧
    (isConnected s = false →
      sendMessage emitOk m s = { s with messageQueue := s.messageQueue ++ [m] }) ∧
    (emitOk = false →
      (sendMessage emitOk m s).messageQueue = s.messageQueue ++ [m] ∧
      (sendMessage emitOk m s).sent = s.sent) := by
  refine ⟨?_, ?_, ?_⟩
  · intro hc he
    unfold sendMessage
    simp [hc, he]
  · intro hc
    unfold sendMessage
    simp [hc]
  · intro he
    subst he
    unfold sendMessage
    split
    · exact ⟨rfl, rfl⟩
    · exact ⟨rfl, rfl⟩

/-- Witness for C10 on a connected state with successful emit and on a
disconnected state. -/
theorem c10_send_never_discards_witness :
    sendMessage true { mtype := "audio_data" } heartbeatScenarioState
        = { heartbeatScenarioState with sent := [{ mtype := "audio_data" }] } ∧
    sendMessage true { mtype := "audio_data" } disconnectedWSState
        = { disconnectedWSState with messageQueue := [{ mtype := "audio_data" }] } :=
  ⟨(c10_send_never_discards true { mtype := "audio_data" } heartbeatScenarioState).1
      rfl rfl,
    (c10_send_never_discards true { mtype := "audio_data" } disconnectedWSState).2.1
      rfl⟩

/-- C8 counterexample: after a deliberate disconnect the pending
sendWithResponse call registered for connection_response is still
pending (its handler is still in the listener map, its timer still
running), so the claim that disconnect immediately fails every pending
call is false at this state; the queue part of the claim does hold. -/
theorem c8_pending_survives_disconnect :
    pendingWaiterCount (disconnect pendingAwaitState) = 1 ∧ (1 : Nat) ≠ 0 ∧
    (disconnect pendingAwaitState).listeners = pendingAwaitState.listeners ∧
    (disconnect pendingAwaitState).messageQueue = pendingAwaitState.messageQueue := by
  decide

/-- C8 amended: a deliberate disconnect leaves the outbound message
queue and the listener map (hence every pending sendWithResponse
handler) untouched; pending calls fail only later when their own 10 s
timers fire. -/
theorem c8_disconnect_preserves_queue_and_pending (s : WSState) :
    (disconnect s).messageQueue = s.messageQueue ∧
    (disconnect s).listeners = s.listeners ∧
    pendingWaiterCount (disconnect s) = pendingWaiterCount s := by
  unfold disconnect
  split
  · exact ⟨rfl, rfl, rfl⟩
  · exact ⟨rfl, rfl, rfl⟩

/-- C4 counterexample: the service registers no handler for the
transport event that signals reconnection attempts exhausted, so the
number of terminal failure events it can surface is zero, not exactly
one as claimed. -/
theorem c4_no_terminal_failure_event :
    registeredSocketEvents.count "reconnect_failed" = 0 ∧
    "reconnect_failed" ∉ registeredSocketEvents ∧ (0 : Nat) ≠ 1 := by
  decide

/-- C4 amended: connect delegates reconnection to the transport,
configured with maxAttempts 5 and a constant base delay of 1000 ms (and
a 10 s connect timeout); the service forwards reconnect_attempt and
reconnect events but registers nothing for the terminal
reconnection-failure notification, so it emits no terminal failure
event of its own. -/
theorem c4_reconnect_configuration :
    connectOptions.reconnectionAttempts = 5 ∧
    connectOptions.reconnectionDelayMs = 1000 ∧
    connectOptions.reconnection = true ∧
    connectOptions.timeoutMs = 10000 ∧
    "reconnect_attempt" ∈ registeredSocketEvents ∧
    "reconnect" ∈ registeredSocketEvents ∧
    "reconnect_failed" ∉ registeredSocketEvents := by
  decide

/-- C1: the spec says the chunk sequence values of a recording pass are
exactly 0, 1, ..., n-1 with isFinal true only on the last chunk.  The
code resets the counter at the start of the pass but increments it
before attaching it, so a pass with a single non-empty dataavailable
event emits the single chunk with sequence 1, not 0, and with is_final
false; this evaluation exhibits the divergence at that concrete input. -/
theorem c1_first_chunk_sequence_one :
    ((recordPass [1] startedAudioState).2.map ChunkEvent.sequence = [1] ∧
      (recordPass [1] startedAudioState).2.map ChunkEvent.isFinal = [false]) ∧
    ¬ ((recordPass [1] startedAudioState).2.map ChunkEvent.sequence = [0] ∧
        (recordPass [1] startedAudioState).2.map ChunkEvent.isFinal = [true]) := by
  decide

/-- C9: calling startRecording while a recording is in progress fails
with AlreadyRecording and leaves the capture state unchanged: the
recording stays active and the sequence counter keeps its value. -/
theorem c9_start_while_recording (micOk : Bool) (now : Nat) (s : AudioState)
    (h : s.isRecording = true) :
    startRecording micOk now s = (s, some .alreadyRecording) ∧
    (startRecording micOk now s).1.sequence = s.sequence ∧
    (startRecording micOk now s).1.isRecording = true := by
  unfold startRecording
  simp [h]

/-- Sending a list of messages while the socket is not connected only
appends them, in order, to the message queue. -/
theorem runEvents_enqueue (ms : List Msg) (s : WSState) (h : isConnected s = false) :
    runEvents (ms.map (fun m => WSEvent.callSend true m)) s
      = { s with messageQueue := s.messageQueue ++ ms } := by
  induction ms generalizing s with
  | nil => simp [runEvents]
  | cons m rest ih =>
    have hstep : step (WSEvent.callSend true m) s
        = { s with messageQueue := s.messageQueue ++ [m] } := by
      show sendMessage true m s = _
      unfold sendMessage
      simp [h]
    have hconn2 : isConnected { s with messageQueue := s.messageQueue ++ [m] } = false := h
    have hrec := ih { s with messageQueue := s.messageQueue ++ [m] } hconn2
    simp only [List.map_cons, runEvents, List.foldl_cons] at hrec ⊢
    rw [hstep, hrec]
    simp

/-- When the socket is connected and no emit throws, the flush loop with
fuel equal to the queue length empties the queue onto the transport in
queue order. -/
theorem flushLoop_all_sent (q : List Msg) (eo : Msg → Bool) :
    ∀ s : WSState, s.messageQueue = q → isConnected s = true →
      (∀ m ∈ q, eo m = true) →
      flushLoop q.length eo s = { s with messageQueue := [], sent := s.sent ++ q } := by
  induction q with
  | nil =>
    intro s hq _ _
    show s = _
    rw [List.append_nil, ← hq]
  | cons m rest ih =>
    intro s hq hc hall
    have hcfalse : ¬ (isConnected s = false) := by rw [hc]; simp
    show flushLoop (rest.length + 1) eo s = _
    simp only [flushLoop]
    rw [if_neg hcfalse]
    split
    · rename_i heq
      rw [hq] at heq
      cases heq
    · rename_i m2 rest2 heq
      rw [hq] at heq
      injection heq with e1 e2
      subst e1
      subst e2
      have hc2 : isConnected { s with messageQueue := rest } = true := hc
      have hm : eo m = true := hall m (by simp)
      have hsend : sendMessage (eo m) m { s with messageQueue := rest }
          = { s with messageQueue := rest, sent := s.sent ++ [m] } := by
        unfold sendMessage
        rw [hm]
        simp [hc2]
      rw [hsend]
      have hrest := ih { s with messageQueue := rest, sent := s.sent ++ [m] } rfl hc
        (fun x hx => hall x (by simp [hx]))
      rw [hrest]
      simp

/-- C2: messages passed to sendMessage while the socket is not connected
are buffered in FIFO order and, on the reconnect event, flushed to the
transport in exactly enqueue order, none dropped and none reordered
(the flush is a synchronous loop, so no new enqueue interleaves). -/
theorem c2_offline_messages_flushed_fifo (ms : List Msg) (eo : Msg → Bool) (s : WSState)
    (hconn : isConnected s = false)
    (hok : ∀ m ∈ s.messageQueue ++ ms, eo m = true) :
    (step (.sockReconnect eo) (runEvents (ms.map (fun m => WSEvent.callSend true m)) s)).sent
        = s.sent ++ (s.messageQueue ++ ms) ∧
    (step (.sockReconnect eo)
        (runEvents (ms.map (fun m => WSEvent.callSend true m)) s)).messageQueue = [] := by
  rw [runEvents_enqueue ms s hconn]
  have hflush : flushMessageQueue eo
      { socketNonNull := true, connected := true, sessionId := s.sessionId,
        messageQueue := s.messageQueue ++ ms, sent := s.sent,
        heartbeatActive := s.heartbeatActive, listeners := s.listeners }
      = { socketNonNull := true, connected := true, sessionId := s.sessionId,
          messageQueue := [], sent := s.sent ++ (s.messageQueue ++ ms),
          heartbeatActive := s.heartbeatActive, listeners := s.listeners } := by
    exact flushLoop_all_sent (s.messageQueue ++ ms) eo _ rfl rfl hok
  constructor
  · show (flushMessageQueue eo _).sent = _
    rw [hflush]
  · show (flushMessageQueue eo _).messageQueue = _
    rw [hflush]

/-- Witness for C2: two messages sent while disconnected, one message
already queued, all emits succeeding on flush. -/
theorem c2_offline_messages_flushed_fifo_witness :
    (step (.sockReconnect (fun _ => true))
        (runEvents ([{ mtype := "a" }, { mtype := "b" }].map
          (fun m => WSEvent.callSend true m))
          { disconnectedWSState with messageQueue := [{ mtype := "m0" }] })).sent
        = [{ mtype := "m0" }, { mtype := "a" }, { mtype := "b" }] ∧
    (step (.sockReconnect (fun _ => true))
        (runEvents ([{ mtype := "a" }, { mtype := "b" }].map
          (fun m => WSEvent.callSend true m))
          { disconnectedWSState with messageQueue := [{ mtype := "m0" }] })).messageQueue
        = [] :=
  c2_offline_messages_flushed_fifo [{ mtype := "a" }, { mtype := "b" }] (fun _ => true)
    { disconnectedWSState with messageQueue := [{ mtype := "m0" }] }
    rfl (fun _ _ => rfl)

/-- C3 counterexample: with the socket connected and the heartbeat timer
running, the 30 s tick fires at t = 30 s and no inbound message of any
kind arrives through t = 40 s; the claim requires the connection to be
torn down (Connected to Reconnecting) by then, but the service merely
sends a heartbeat_response message and stays connected: no pong deadline
is tracked anywhere. -/
theorem c3_no_watchdog :
    (runEvents [WSEvent.hbTick true] heartbeatScenarioState).connected = true ∧
    (runEvents [WSEvent.hbTick true] heartbeatScenarioState).sent
        = [heartbeatResponseMsg] ∧
    ¬ ((runEvents [WSEvent.hbTick true] heartbeatScenarioState).connected = false) := by
  decide

/-- C3 amended: while the timer is active and the socket connected, each
30 s tick sends one heartbeat_response-type message; a tick while not
connected sends nothing; a tick never changes the connection itself (no
client-side teardown on missing pongs); and both disconnect paths stop
the timer, suspending the monitor while not connected. -/
theorem c3_heartbeat_amended (s : WSState) (ok : Bool) :
    (s.heartbeatActive = true → isConnected s = true →
      step (.hbTick true) s = { s with sent := s.sent ++ [heartbeatResponseMsg] }) ∧
    (isConnected s = false → step (.hbTick ok) s = s) ∧
    ((step (.hbTick ok) s).connected = s.connected ∧
      (step (.hbTick ok) s).socketNonNull = s.socketNonNull) ∧
    ((step .sockDisconnect s).heartbeatActive = false ∧
      (s.socketNonNull = true → (step .callDisconnect s).heartbeatActive = false)) := by
  refine ⟨?_, ?_, ⟨?_, ?_⟩, ⟨rfl, ?_⟩⟩
  · intro h1 h2
    have hcond : (s.heartbeatActive && isConnected s) = true := by rw [h1, h2]; rfl
    show (if s.heartbeatActive && isConnected s then
        sendMessage true heartbeatResponseMsg s else s) = _
    rw [hcond]
    unfold sendMessage
    simp [h2]
  · intro h
    have hcond : (s.heartbeatActive && isConnected s) = false := by rw [h]; simp
    show (if s.heartbeatActive && isConnected s then
        sendMessage ok heartbeatResponseMsg s else s) = _
    rw [hcond]
    simp
  · show ((if s.heartbeatActive && isConnected s then
        sendMessage ok heartbeatResponseMsg s else s)).connected = _
    split
    · exact (sendMessage_preserves ok heartbeatResponseMsg s).2.1
    · rfl
  · show ((if s.heartbeatActive && isConnected s then
        sendMessage ok heartbeatResponseMsg s else s)).socketNonNull = _
    split
    · exact (sendMessage_preserves ok heartbeatResponseMsg s).1
    · rfl
  · intro h
    show (disconnect s).heartbeatActive = false
    unfold disconnect
    simp [h]

/-- Witness for C3 amended at the connected heartbeat state and at the
null-socket state. -/
theorem c3_heartbeat_amended_witness :
    step (.hbTick true) heartbeatScenarioState
        = { heartbeatScenarioState with sent := [heartbeatResponseMsg] } ∧
    step (.hbTick true) disconnectedWSState = disconnectedWSState ∧
    (step .callDisconnect heartbeatScenarioState).heartbeatActive = false :=
  ⟨(c3_heartbeat_amended heartbeatScenarioState true).1 rfl rfl,
    (c3_heartbeat_amended disconnectedWSState true).2.1 rfl,
    (c3_heartbeat_amended heartbeatScenarioState true).2.2.2.2 rfl⟩

/-- A message that is not a connection_response carrying a session_id
leaves the stored sessionId unchanged. -/
theorem handleMessage_sessionId (m : Msg) (s : WSState)
    (h : (m.mtype == "connection_response" && m.sid.isSome) = false) :
    (handleMessage m s).sessionId = s.sessionId := by
  unfold handleMessage
  cases hmt : m.mtype == "connection_response" with
  | false => simp [hmt, dispatchEvent]
  | true =>
    cases hsid : m.sid with
    | none => simp [hmt, hsid, dispatchEvent]
    | some sid =>
      rw [hmt, hsid] at h
      simp at h

/-- A step that is not an inbound connection_response with a session_id
keeps the sessionId equal to none. -/
theorem step_sessionId_none (e : WSEvent) (s : WSState) (hs : s.sessionId = none)
    (he : assignsSession e = false) : (step e s).sessionId = none := by
  cases e with
  | sockConnect => exact hs
  | sockDisconnect => rfl
  | sockReconnect eo =>
    exact ((flushLoop_preserves _ eo _).2.2.1).trans hs
  | incoming m => exact (handleMessage_sessionId m s he).trans hs
  | callSend ok m => exact ((sendMessage_preserves ok m s).2.2.1).trans hs
  | callDisconnect =>
    show (disconnect s).sessionId = none
    unfold disconnect
    split
    · rfl
    · exact hs
  | hbTick ok =>
    show ((if s.heartbeatActive && isConnected s then
        sendMessage ok heartbeatResponseMsg s else s)).sessionId = none
    split
    · exact ((sendMessage_preserves ok heartbeatResponseMsg s).2.2.1).trans hs
    · exact hs

/-- Along any event sequence free of session-assigning messages, a
cleared sessionId stays cleared. -/
theorem runEvents_sessionId_none (evs : List WSEvent) :
    ∀ s : WSState, s.sessionId = none → (∀ e ∈ evs, assignsSession e = false) →
      (runEvents evs s).sessionId = none := by
  induction evs with
  | nil => intro s hs _; exact hs
  | cons e rest ih =>
    intro s hs hall
    have h1 := step_sessionId_none e s hs (hall e (by simp))
    have h2 := ih (step e s) h1 (fun x hx => hall x (by simp [hx]))
    simpa [runEvents] using h2

/-- C5: the stored sessionId is cleared on every disconnect, transport
initiated or deliberate; a fresh connection_response stores the new id;
and after a disconnect the sessionId stays none until the next
connection_response with a session_id arrives, so a session is never
resumed across a disconnect. -/
theorem c5_session_cleared_and_not_resumed (s : WSState) (sid : String)
    (evs : List WSEvent) (hnr : ∀ e ∈ evs, assignsSession e = false) :
    (step .sockDisconnect s).sessionId = none ∧
    (s.socketNonNull = true → (step .callDisconnect s).sessionId = none) ∧
    (step (.incoming { mtype := "connection_response", sid := some sid }) s).sessionId
        = some sid ∧
    (runEvents evs (step .sockDisconnect s)).sessionId = none := by
  refine ⟨rfl, ?_, ?_, ?_⟩
  · intro h
    show (disconnect s).sessionId = none
    unfold disconnect
    simp [h]
  · show (handleMessage _ s).sessionId = some sid
    simp [handleMessage, setSessionId, dispatchEvent]
  · exact runEvents_sessionId_none evs _ rfl hnr

/-- Witness for C5: session s1 is dropped by the transport disconnect,
stays cleared across a heartbeat tick, and a later handshake stores the
fresh id s2. -/
theorem c5_session_cleared_and_not_resumed_witness :
    (step .sockDisconnect heartbeatScenarioState).sessionId = none ∧
    (step .callDisconnect heartbeatScenarioState).sessionId = none ∧
    (step (.incoming { mtype := "connection_response", sid := some "s2" })
        heartbeatScenarioState).sessionId = some "s2" ∧
    (runEvents [WSEvent.hbTick true]
        (step .sockDisconnect heartbeatScenarioState)).sessionId = none := by
  obtain ⟨h1, h2, h3, h4⟩ :=
    c5_session_cleared_and_not_resumed heartbeatScenarioState "s2"
      [WSEvent.hbTick true] (by decide)
  exact ⟨h1, h2 rfl, h3, h4⟩

/-- Characterisation of the awaitLoop race for any deadline: the
outcome is ok on the first message of the expected type arriving
strictly before the deadline, and the Timeout error otherwise. -/
theorem awaitLoop_spec (rt : String) (d : Nat) (evs : List Inbound) :
    awaitLoop rt d evs =
      (match (evs.takeWhile (fun m => decide (m.time < d))).find?
          (fun m => m.mtype == rt) with
        | some m => Except.ok m
        | none => Except.error (timeoutText rt)) := by
  induction evs with
  | nil => rfl
  | cons m rest ih =>
    by_cases h1 : d ≤ m.time
    · have hdec : decide (m.time < d) = false := by simp; omega
      simp [awaitLoop, h1, hdec, List.takeWhile_cons]
    · have hlt : m.time < d := by omega
      have hdec : decide (m.time < d) = true := by simp [hlt]
      cases h2 : m.mtype == rt with
      | true => simp [awaitLoop, h1, hdec, h2, List.takeWhile_cons, List.find?_cons]
      | false => simp [awaitLoop, h1, hdec, h2, List.takeWhile_cons, List.find?_cons, ih]

/-- C6: a sendWithResponse call settles on every inbound trace: it
resolves with the first message of the expected response type that
arrives strictly before the 10000 ms timer fires (the timer being
cleared at that point), and otherwise the timer rejection fires with the
Timeout error, so the call never stays pending. -/
theorem c6_await_resolves_or_times_out (rt : String) (evs : List Inbound) :
    sendWithResponse rt evs =
      (match (evs.takeWhile (fun m => decide (m.time < sendWithResponseTimeoutMs))).find?
          (fun m => m.mtype == rt) with
        | some m => Except.ok m
        | none => Except.error (timeoutText rt)) ∧
    sendWithResponseTimeoutMs = 10000 :=
  ⟨awaitLoop_spec rt sendWithResponseTimeoutMs evs, rfl⟩

/-- Exhausting the budget on an empty remainder returns the passed
part of the array unchanged. -/
theorem emitRec_nil (b : Nat) (front : List Handler) (res : List Nat) :
    emitRec b front [] res = (front, res) := by
  cases b with
  | zero =>
    show (front ++ [], res) = (front, res)
    rw [List.append_nil]
  | succ bp => rfl

/-- Plain listeners at the front of the remainder are passed over one
per iteration without touching the array or resolving anything. -/
theorem emitRec_plains (pre : List Handler) :
    ∀ (front rest : List Handler) (res : List Nat) (b : Nat),
      (∀ h ∈ pre, h.isPlain = true) → pre.length ≤ b →
      emitRec b front (pre ++ rest) res
        = emitRec (b - pre.length) (front ++ pre) rest res := by
  induction pre with
  | nil =>
    intro front rest res b _ _
    simp
  | cons p pre2 ih =>
    intro front rest res b hp hb
    cases p with
    | waiter i =>
      exfalso
      have := hp _ (List.mem_cons_self _ _)
      simp [Handler.isPlain] at this
    | plain i =>
      cases b with
      | zero =>
        exfalso
        simp at hb
      | succ b2 =>
        have h1 : emitRec (b2 + 1) front ((Handler.plain i :: pre2) ++ rest) res
            = emitRec b2 (front ++ [Handler.plain i]) (pre2 ++ rest) res := rfl
        rw [h1, ih (front ++ [Handler.plain i]) rest res b2
          (fun x hx => hp x (List.mem_cons_of_mem _ hx)) (by simpa using hb)]
        rw [show (b2 + 1) - (Handler.plain i :: pre2).length = b2 - pre2.length from by
          simp only [List.length_cons]; omega]
        rw [← List.append_cons]

/-- A remainder of plain listeners is consumed whole when the budget
suffices. -/
theorem emitRec_all_plain (post : List Handler) (front : List Handler) (res : List Nat)
    (b : Nat) (hp : ∀ h ∈ post, h.isPlain = true) (hb : post.length ≤ b) :
    emitRec b front post res = (front ++ post, res) := by
  have h1 := emitRec_plains post front [] res b hp hb
  rw [List.append_nil] at h1
  rw [h1, emitRec_nil]

/-- The index-based forEach loop agrees with the passed-part and
remainder recursion. -/
theorem forEachCall_eq_emitRec (n : Nat) :
    ∀ (len0 k : Nat) (arr : List Handler) (res : List Nat),
      len0 - k ≤ n →
      forEachCall len0 k arr res = emitRec (len0 - k) (arr.take k) (arr.drop k) res := by
  induction n with
  | zero =>
    intro len0 k arr res hn
    have hk : ¬ k < len0 := by omega
    unfold forEachCall
    rw [dif_neg hk, show len0 - k = 0 from by omega]
    show (arr, res) = (arr.take k ++ arr.drop k, res)
    rw [List.take_append_drop]
  | succ n2 ih =>
    intro len0 k arr res hn
    by_cases hk : k < len0
    · unfold forEachCall
      rw [dif_pos hk]
      by_cases hlen : k < arr.length
      · rw [dif_pos hlen]
        have hdrop : arr.drop k = arr.get ⟨k, hlen⟩ :: arr.drop (k + 1) := by
          rw [List.get_eq_getElem]
          exact List.drop_eq_getElem_cons hlen
        have htake : arr.take (k + 1) = arr.take k ++ [arr.get ⟨k, hlen⟩] := by
          rw [List.get_eq_getElem, List.take_succ, List.getElem?_eq_getElem hlen]
          rfl
        split
        · rename_i i hget
          rw [ih len0 (k + 1) arr res (by omega)]
          rw [hdrop, hget, show len0 - k = (len0 - (k + 1)) + 1 from by omega]
          simp only [emitRec]
          rw [htake, hget]
        · rename_i i hget
          rw [ih len0 (k + 1) (arr.eraseIdx k) (res ++ [i]) (by omega)]
          have herase : arr.eraseIdx k = arr.take k ++ arr.drop (k + 1) :=
            List.eraseIdx_eq_take_drop_succ arr k
          have hlentake : (arr.take k).length = k := by
            rw [List.length_take]
            exact min_eq_left (le_of_lt hlen)
          have htk : (arr.eraseIdx k).take (k + 1)
              = arr.take k ++ (arr.drop (k + 1)).take 1 := by
            rw [herase, List.take_append_eq_append_take, hlentake]
            rw [List.take_of_length_le (le_trans (le_of_eq hlentake) (by omega))]
            rw [show k + 1 - k = 1 from by omega]
          have hdk : (arr.eraseIdx k).drop (k + 1) = (arr.drop (k + 1)).drop 1 := by
            rw [herase, List.drop_append_eq_append_drop, hlentake]
            rw [List.drop_eq_nil_of_le (le_trans (le_of_eq hlentake) (by omega))]
            rw [show k + 1 - k = 1 from by omega, List.nil_append]
          rw [htk, hdk, hdrop, hget, show len0 - k = (len0 - (k + 1)) + 1 from by omega]
          cases hd2 : arr.drop (k + 1) with
          | nil =>
            simp only [List.take_nil, List.drop_nil, List.append_nil]
            rw [emitRec_nil]
            show _ = emitRec (len0 - (k + 1)) (arr.take k) [] (res ++ [i])
            rw [emitRec_nil]
          | cons h2 t2 =>
            rfl
      · rw [dif_neg hlen]
        rw [ih len0 (k + 1) arr res (by omega)]
        have hle : arr.length ≤ k := by omega
        rw [List.take_of_length_le hle, List.take_of_length_le (by omega)]
        rw [List.drop_eq_nil_of_le hle, List.drop_eq_nil_of_le (by omega)]
        rw [emitRec_nil, emitRec_nil]
    · unfold forEachCall
      rw [dif_neg hk, show len0 - k = 0 from by omega]
      show (arr, res) = (arr.take k ++ arr.drop k, res)
      rw [List.take_append_drop]

/-- The emit of one message over a listener array runs the remainder
recursion with the array length as budget. -/
theorem emitEvent_eq (arr : List Handler) :
    emitEvent arr = emitRec arr.length [] arr [] := by
  have h := forEachCall_eq_emitRec arr.length arr.length 0 arr [] (by omega)
  simpa [emitEvent] using h

/-- Adjacent-waiters case of the emit: when the two pending handlers
sit next to each other among otherwise plain listeners, a single
response message resolves only the first; its handler removes itself
during the forEach, the array shifts, and the iteration skips the
second handler, which stays registered and resolves only on the next
message of that type. -/
theorem emitEvent_adjacent_waiters (pre post : List Handler) (a b : Nat)
    (hpre : ∀ h ∈ pre, h.isPlain = true) (hpost : ∀ h ∈ post, h.isPlain = true) :
    emitEvent (pre ++ Handler.waiter a :: Handler.waiter b :: post)
        = (pre ++ Handler.waiter b :: post, [a]) ∧
    emitEvent (pre ++ Handler.waiter b :: post) = (pre ++ post, [b]) := by
  constructor
  · rw [emitEvent_eq]
    rw [emitRec_plains pre [] (Handler.waiter a :: Handler.waiter b :: post) []
      (pre ++ Handler.waiter a :: Handler.waiter b :: post).length hpre (by simp)]
    rw [show (pre ++ Handler.waiter a :: Handler.waiter b :: post).length - pre.length
        = post.length + 2 from by simp only [List.length_append, List.length_cons]; omega]
    rw [List.nil_append]
    have hstep : emitRec (post.length + 2) pre
        (Handler.waiter a :: Handler.waiter b :: post) []
        = emitRec (post.length + 1) (pre ++ [Handler.waiter b]) post [a] := rfl
    rw [hstep, emitRec_all_plain post (pre ++ [Handler.waiter b]) [a]
      (post.length + 1) hpost (by omega)]
    rw [← List.append_cons]
  · rw [emitEvent_eq]
    rw [emitRec_plains pre [] (Handler.waiter b :: post) []
      (pre ++ Handler.waiter b :: post).length hpre (by simp)]
    rw [show (pre ++ Handler.waiter b :: post).length - pre.length = post.length + 1 from by
      simp only [List.length_append, List.length_cons]; omega]
    rw [List.nil_append]
    cases post with
    | nil => rfl
    | cons h2 t2 =>
      have hstep2 : emitRec ((h2 :: t2).length + 1) pre (Handler.waiter b :: h2 :: t2) []
          = emitRec (t2.length + 1) (pre ++ [h2]) t2 [b] := rfl
      rw [hstep2, emitRec_all_plain t2 (pre ++ [h2]) [b] (t2.length + 1)
        (fun x hx => hpost x (by simp [hx])) (by omega)]
      rw [← List.append_cons]

/-- C7 counterexample: the claim says a second concurrent
sendWithResponse for the same response type never resolves on the same
single response message that resolves the first.  With a plain listener
registered for the type between the two pending handlers, one emit
resolves both requests 1 and 2; and with three concurrent awaits, one
emit resolves both the first and the third.  (The forEach visits the
index after the removed first handler, which by then holds a later
waiter.)  So the claimed policy fails at these reachable listener
arrays. -/
theorem c7_same_response_resolves_both :
    emitEvent [Handler.waiter 1, Handler.plain 0, Handler.waiter 2]
        = ([Handler.plain 0], [1, 2]) ∧
    2 ∈ (emitEvent [Handler.waiter 1, Handler.plain 0, Handler.waiter 2]).2 ∧
    emitEvent [Handler.waiter 1, Handler.waiter 2, Handler.waiter 3]
        = ([Handler.waiter 2], [1, 3]) ∧
    3 ∈ (emitEvent [Handler.waiter 1, Handler.waiter 2, Handler.waiter 3]).2 := by
  have h1 : emitEvent [Handler.waiter 1, Handler.plain 0, Handler.waiter 2]
      = ([Handler.plain 0], [1, 2]) := by
    rw [emitEvent_eq]
    rfl
  have h2 : emitEvent [Handler.waiter 1, Handler.waiter 2, Handler.waiter 3]
      = ([Handler.waiter 2], [1, 3]) := by
    rw [emitEvent_eq]
    rfl
  refine ⟨h1, ?_, h2, ?_⟩
  · rw [h1]
    decide
  · rw [h2]
    decide

/-- C7 amended: no at-most-one-outstanding-await policy is enforced and
no RequestInFlight failure exists.  When the two pending handlers are
adjacent in the listener array (the second call registered directly
after the first, with no other listener for that type added between
them), the second call does queue behind the first, resolving only on a
later response, because the self-removal of the first handler shifts
the array and the forEach skips the second.  But when another listener
sits between the two pending handlers, or when three awaits are pending
concurrently, one single response message resolves both the first and a
later pending await. -/
theorem c7_no_single_await_policy (pre post : List Handler) (a b c p : Nat)
    (hpre : ∀ h ∈ pre, h.isPlain = true) (hpost : ∀ h ∈ post, h.isPlain = true) :
    (emitEvent (pre ++ Handler.waiter a :: Handler.waiter b :: post)
        = (pre ++ Handler.waiter b :: post, [a]) ∧
      emitEvent (pre ++ Handler.waiter b :: post) = (pre ++ post, [b])) ∧
    emitEvent [Handler.waiter a, Handler.plain p, Handler.waiter b]
        = ([Handler.plain p], [a, b]) ∧
    emitEvent [Handler.waiter a, Handler.waiter b, Handler.waiter c]
        = ([Handler.waiter b], [a, c]) :=
  ⟨emitEvent_adjacent_waiters pre post a b hpre hpost,
    by rw [emitEvent_eq]; rfl, by rw [emitEvent_eq]; rfl⟩

/-- Witness for C7 amended: the adjacent pair among plain listeners
queues, while the interleaved pair and the triple resolve together. -/
theorem c7_no_single_await_policy_witness :
    (emitEvent [Handler.plain 0, Handler.waiter 1, Handler.waiter 2, Handler.plain 3]
        = ([Handler.plain 0, Handler.waiter 2, Handler.plain 3], [1]) ∧
      emitEvent [Handler.plain 0, Handler.waiter 2, Handler.plain 3]
        = ([Handler.plain 0, Handler.plain 3], [2])) ∧
    emitEvent [Handler.waiter 1, Handler.plain 5, Handler.waiter 2]
        = ([Handler.plain 5], [1, 2]) ∧
    emitEvent [Handler.waiter 1, Handler.waiter 2, Handler.waiter 3]
        = ([Handler.waiter 2], [1, 3]) :=
  c7_no_single_await_policy [Handler.plain 0] [Handler.plain 3] 1 2 3 5
    (by decide) (by decide)

/-- Witness for C9 at a concrete mid-recording state with sequence 5. -/
theorem c9_start_while_recording_witness :
    startRecording true 7 { isRecording := true, sequence := 5, chunkCount := 5, startTime := 2 }
      = ({ isRecording := true, sequence := 5, chunkCount := 5, startTime := 2 },
          some .alreadyRecording) ∧
    (startRecording true 7 { isRecording := true, sequence := 5, chunkCount := 5, startTime := 2 }).1.sequence = 5 ∧
    (startRecording true 7 { isRecording := true, sequence := 5, chunkCount := 5, startTime := 2 }).1.isRecording = true :=
  c9_start_while_recording true 7
    { isRecording := true, sequence := 5, chunkCount := 5, startTime := 2 } rfl

end Kilo
